import Mathlib

/-!
Shallow embedding of the Atomo10 transit-line backend core
(src/main.py together with src/schemas.py): the stop-list mutation
handlers (`add_stop`, `edit_stop`, `delete_stop`), the schedule
replacement handler (`set_schedules`) and the ETA projection
(`compute_eta`), together with theorems about them.

The document store is modelled as an association list from id strings
to line documents; `update_one` touches the first matching entry and
`find_one` returns it.  Python `datetime` values are modelled by an
ordinal day plus a minute-of-day, which is all the ETA code ever reads
or writes of them (it replaces hour/minute, zeroes seconds, adds a
minute `timedelta` and formats `%H:%M`).  Python's floor division and
modulo coincide with Lean's euclidean `/` and `%` on `Int` for the
positive modulus 1440 used here.  Latitude/longitude values are
carried as `Option Rat`; the code only stores and copies them, never
computes with them.
-/

/-- A stored stop document, as pushed into a line's `stops` array
(fields of `schemas.Stop` / `StopInput` in the source). -/
structure Stop where
  id : Option String := none
  name : String
  lat : Option Rat := none
  lng : Option Rat := none
  travel_minutes_from_prev : Int := 0
deriving DecidableEq, Inhabited

/-- The source's `schemas.Stop` declares `travel_minutes_from_prev: int = Field(0, ge=0)`:
the schema-level validity predicate for a stored stop. -/
def stopSchemaOK (s : Stop) : Bool :=
  decide (0 ≤ s.travel_minutes_from_prev)

/-- A line document (`schemas.Line`). -/
structure Line where
  name : String
  description : Option String := none
  color : Option String := some "#2563eb"
  stops : List Stop := []
  schedules : List String := []
  locale : Option String := some "it"
deriving DecidableEq, Inhabited

/-- The document store: id string to line document, ids unique in
practice; `find_one`/`update_one` act on the first match. -/
abbrev Store := List (String × Line)

/-- Error outcomes of the HTTP handlers.  `notFound` is the 404
"Line not found", `invalidIndex` the 400 "Invalid stop index",
`invalidId` the caught 400 "Invalid line id", and `internalError` an
uncaught Python exception (a 500). -/
inductive ApiError where
  | notFound
  | invalidIndex
  | invalidId
  | internalError (msg : String)
deriving DecidableEq, Inhabited

/-- A hexadecimal digit, as `bson.ObjectId` accepts. -/
def isHexChar (c : Char) : Bool :=
  c.isDigit || ('a' ≤ c && c ≤ 'f') || ('A' ≤ c && c ≤ 'F')

/-- Validity of an id string: `bson.ObjectId(line_id)` succeeds exactly on 24-character hex
strings (the string form an HTTP path parameter can take). -/
def isValidObjectId (s : String) : Bool :=
  s.data.length == 24 && s.data.all isHexChar

/-- Embeds `find_one({"_id": ObjectId(line_id)})`. -/
def lookupLine (store : Store) (id : String) : Option Line :=
  match store with
  | [] => none
  | e :: rest => if e.1 == id then some e.2 else lookupLine rest id

/-- Embeds `update_one({"_id": ...}, ...)`: rewrite the first matching
document with `f`; a store with no match is returned unchanged
(`matched_count` would be 0). -/
def storeUpdate (store : Store) (id : String) (f : Line → Line) : Store :=
  match store with
  | [] => []
  | e :: rest => if e.1 == id then (e.1, f e.2) :: rest else e :: storeUpdate rest id f

/-- The model of a Python `datetime`: ordinal calendar day and minute
of that day.  Seconds and microseconds are zeroed by the code before
any arithmetic, so they are not carried. -/
structure PyDateTime where
  day : Int
  minuteOfDay : Nat
deriving DecidableEq, Inhabited

/-- Embeds `base_time.replace(hour=hh, minute=mm, second=0, microsecond=0)`. -/
def replaceTime (d : PyDateTime) (hh mm : Nat) : PyDateTime :=
  { day := d.day, minuteOfDay := 60 * hh + mm }

/-- Embeds `dt + timedelta(minutes=c)`.  Python divmod floors; for the
positive modulus 1440, Lean's euclidean `/` and `%` on `Int` agree
with that. -/
def addMinutes (d : PyDateTime) (c : Int) : PyDateTime :=
  let total : Int := d.day * 1440 + (d.minuteOfDay : Int) + c
  { day := total / 1440, minuteOfDay := (total % 1440).toNat }

/-- Zero-pad to two digits, as `%H` / `%M` do. -/
def pad2 (n : Nat) : String :=
  if n < 10 then "0" ++ toString n else toString n

/-- Format a minute-of-day as `HH:MM`. -/
def fmtHHMM (m : Nat) : String :=
  pad2 (m / 60) ++ ":" ++ pad2 (m % 60)

/-- Embeds `dt.strftime("%H:%M")`. -/
def strftimeHM (d : PyDateTime) : String :=
  fmtHHMM d.minuteOfDay

/-- Python `str.split(sep)` for a one-character separator, over the
character list (`"a:b".split(":") == ["a","b"]`, `"".split(":") == [""]`). -/
def splitOnCharAux (sep : Char) : List Char → List Char → List (List Char)
  | [], acc => [acc.reverse]
  | c :: rest, acc =>
      if c = sep then acc.reverse :: splitOnCharAux sep rest []
      else splitOnCharAux sep rest (c :: acc)

/-- Embeds `dep.split(":")`. -/
def splitColon (s : String) : List (List Char) :=
  splitOnCharAux ':' s.data []

/-- Decimal digit run to a number; `none` on a non-digit or an empty
run. -/
def digitsAux : List Char → Nat → Option Nat
  | [], acc => some acc
  | c :: rest, acc =>
      if c.isDigit then digitsAux rest (acc * 10 + (c.toNat - 48)) else none

/-- Python `int(str)`: an optional sign followed by at least one
decimal digit (surrounding-whitespace and underscore forms do not
occur in `HH:MM` material). -/
def pyInt? (cs : List Char) : Option Int :=
  match cs with
  | [] => none
  | '+' :: rest => if rest = [] then none else (digitsAux rest 0).map Int.ofNat
  | '-' :: rest => if rest = [] then none else (digitsAux rest 0).map (fun n => -(n : Int))
  | _ => (digitsAux cs 0).map Int.ofNat

/-- Embeds `hh, mm = map(int, dep.split(":"))` followed by the range checks
`replace(hour=hh, minute=mm)` performs (hour 0..23, minute 0..59); any
failure raises a `ValueError` in Python.  `strptime(s, "%H:%M")`
accepts/rejects the same `HH:MM` strings. -/
def parseDep (dep : String) : Option (Nat × Nat) :=
  match splitColon dep with
  | [h, m] =>
      match pyInt? h, pyInt? m with
      | some hh, some mm =>
          if 0 ≤ hh ∧ hh ≤ 23 ∧ 0 ≤ mm ∧ mm ≤ 59 then some (hh.toNat, mm.toNat)
          else none
      | _, _ => none
  | _ => none

/-- Arrival string for one (schedule, cumulative-minutes) pair:
replace the base time's hour/minute by the schedule's, add the
cumulative minutes, format `%H:%M`. -/
def arrivalStr (base : PyDateTime) (hh mm : Nat) (c : Int) : String :=
  strftimeHM (addMinutes (replaceTime base hh mm) c)

/-- One entry of the `etas` payload: `{"stop": name, "arrivals": [...]}`. -/
structure EtaEntry where
  stop : String
  arrivals : List String
deriving DecidableEq, Inhabited

/-- Arrival for one schedule entry; a malformed entry is the
uncaught `ValueError` of `int(...)`/`replace(...)`. -/
def stopArrival (base : PyDateTime) (c : Int) (dep : String) : Except ApiError String :=
  match parseDep dep with
  | some (hh, mm) => .ok (arrivalStr base hh mm c)
  | none => .error (.internalError "ValueError")

/-- The inner `for dep in schedules` loop of `compute_eta`, building
the `arrivals` list; a raised `ValueError` aborts the request. -/
def arrivalsFor (base : PyDateTime) (c : Int) : List String → Except ApiError (List String)
  | [] => .ok []
  | dep :: rest =>
      match stopArrival base c dep with
      | .error e => .error e
      | .ok a =>
          match arrivalsFor base c rest with
          | .error e => .error e
          | .ok more => .ok (a :: more)

/-- The outer `for i, s in enumerate(stops)` loop of `compute_eta`:
`i` is the index, the `Int` argument the running `cumulative` total. -/
def etaAux (base : PyDateTime) (schedules : List String) :
    Nat → Int → List Stop → Except ApiError (List EtaEntry)
  | _, _, [] => .ok []
  | i, cum, s :: rest =>
      let c := if i = 0 then 0 else cum + s.travel_minutes_from_prev
      match arrivalsFor base c schedules with
      | .error e => .error e
      | .ok arr =>
          match etaAux base schedules (i + 1) c rest with
          | .error e => .error e
          | .ok more => .ok ({ stop := s.name, arrivals := arr } :: more)

/-- The trace of values the `cumulative` variable takes in the loop of
`compute_eta`, one per stop, starting at index `i` with running total
`cum` (the real run starts at `loopCums 0 0`). -/
def loopCums : Nat → Int → List Stop → List Int
  | _, _, [] => []
  | i, cum, s :: rest =>
      let c := if i = 0 then 0 else cum + s.travel_minutes_from_prev
      c :: loopCums (i + 1) c rest

/-- Resolution of the `now` query parameter to `base_time`: a missing
or empty string uses the wall clock; otherwise
`strptime(now, "%H:%M")` then `combine(today, ...)`, so the clock's
day with the parsed minute of day.  A malformed string is an uncaught
`ValueError`. -/
def resolveBase (clock : PyDateTime) (now : Option String) : Except ApiError PyDateTime :=
  match now with
  | none => .ok clock
  | some s =>
      if s = "" then .ok clock
      else
        match parseDep s with
        | some (hh, mm) => .ok { day := clock.day, minuteOfDay := 60 * hh + mm }
        | none => .error (.internalError "ValueError")

/-- The handler of `GET /api/lines/{line_id}/eta` (`compute_eta` in src/main.py).
`clock` is the ambient wall clock (`datetime.now()` / `today()`).
There is no try/except around `ObjectId(line_id)`, so a malformed id
is an uncaught `bson.errors.InvalidId`. -/
def compute_eta (store : Store) (clock : PyDateTime) (line_id : String)
    (from_stop_index : Int) (now : Option String) : Except ApiError (List EtaEntry) :=
  if !isValidObjectId line_id then .error (.internalError "InvalidId")
  else
    match lookupLine store line_id with
    | none => .error .notFound
    | some doc =>
        if doc.schedules.isEmpty then .ok []
        else
          match resolveBase clock now with
          | .error e => .error e
          | .ok base =>
              match etaAux base doc.schedules 0 0 doc.stops with
              | .error e => .error e
              | .ok etas =>
                  .ok (if 0 ≤ from_stop_index ∧ from_stop_index < (etas.length : Int) then
                      etas.drop from_stop_index.toNat
                    else etas)

/-- The request body of `POST /api/lines/{line_id}/stops`
(`StopInput` in src/main.py): pydantic checks only the field shapes;
there is no `ge=0` bound on `travel_minutes_from_prev` here. -/
structure StopInput where
  name : String
  lat : Option Rat := none
  lng : Option Rat := none
  travel_minutes_from_prev : Int := 0
deriving DecidableEq, Inhabited

/-- Embeds `stop.model_dump()` as the stored stop document pushed by
`add_stop` (no `id` key). -/
def StopInput.toStop (si : StopInput) : Stop :=
  { id := none, name := si.name, lat := si.lat, lng := si.lng,
    travel_minutes_from_prev := si.travel_minutes_from_prev }

/-- The handler of `POST /api/lines/{line_id}/stops` (`add_stop`): `$push` the dumped
stop; `ObjectId` failure is caught as 400, `matched_count == 0` is
404.  Returns the handler result paired with the post-state of the
store. -/
def add_stop (store : Store) (line_id : String) (stop : StopInput) :
    Except ApiError Unit × Store :=
  if !isValidObjectId line_id then (.error .invalidId, store)
  else
    match lookupLine store line_id with
    | none => (.error .notFound, store)
    | some _ =>
        (.ok (), storeUpdate store line_id
          (fun d => { d with stops := d.stops ++ [stop.toStop] }))

/-- The request body of `PATCH /api/lines/{line_id}/stops`
(`StopPatch`): index plus four optional fields; a field left `none` is
absent from the patch. -/
structure StopPatch where
  index : Int
  name : Option String := none
  lat : Option Rat := none
  lng : Option Rat := none
  travel_minutes_from_prev : Option Int := none
deriving DecidableEq, Inhabited

/-- The field-overwrite loop of `edit_stop`: each field present in the
patch overwrites the stop's field, absent fields are left alone (the
stored `id` key is never touched). -/
def applyPatch (p : StopPatch) (s : Stop) : Stop :=
  { s with
    name := match p.name with | some v => v | none => s.name
    lat := match p.lat with | some v => some v | none => s.lat
    lng := match p.lng with | some v => some v | none => s.lng
    travel_minutes_from_prev :=
      match p.travel_minutes_from_prev with
      | some v => v
      | none => s.travel_minutes_from_prev }

/-- The handler of `PATCH /api/lines/{line_id}/stops` (`edit_stop`): no try/except
around `ObjectId`, bounds check before any write, then the whole stop
list is `$set` back. -/
def edit_stop (store : Store) (line_id : String) (patch : StopPatch) :
    Except ApiError Unit × Store :=
  if !isValidObjectId line_id then (.error (.internalError "InvalidId"), store)
  else
    match lookupLine store line_id with
    | none => (.error .notFound, store)
    | some doc =>
        if patch.index < 0 ∨ (doc.stops.length : Int) ≤ patch.index then
          (.error .invalidIndex, store)
        else
          let i := patch.index.toNat
          let stops' := doc.stops.set i (applyPatch patch (doc.stops.getD i default))
          (.ok (), storeUpdate store line_id (fun d => { d with stops := stops' }))

/-- The handler of `DELETE /api/lines/{line_id}/stops` (`delete_stop`):
`stops.pop(index)` after the same bounds check, then `$set` the list
back. -/
def delete_stop (store : Store) (line_id : String) (index : Int) :
    Except ApiError Unit × Store :=
  if !isValidObjectId line_id then (.error (.internalError "InvalidId"), store)
  else
    match lookupLine store line_id with
    | none => (.error .notFound, store)
    | some doc =>
        if index < 0 ∨ (doc.stops.length : Int) ≤ index then
          (.error .invalidIndex, store)
        else
          let stops' := doc.stops.eraseIdx index.toNat
          (.ok (), storeUpdate store line_id (fun d => { d with stops := stops' }))

/-- The handler of `PUT /api/lines/{line_id}/schedules` (`set_schedules`): the
`ObjectId` failure is caught as 400 "Invalid line id"; the
`update_one` result is never inspected, so a well-formed id that
matches no document still answers `{ok: true}`. -/
def set_schedules (store : Store) (line_id : String) (schedules : List String) :
    Except ApiError Unit × Store :=
  if !isValidObjectId line_id then (.error .invalidId, store)
  else
    (.ok (), storeUpdate store line_id (fun d => { d with schedules := schedules }))

deriving instance DecidableEq for Except

/-- The spec's arrival formula for one (schedule, stop) pair: the
schedule's minute of day plus the cumulative minutes, reduced modulo
one day and rendered as `HH:MM`. -/
def specArrival (c : Int) (hh mm : Nat) : String :=
  fmtHHMM ((((60 * hh + mm : Nat) : Int) + c) % 1440).toNat

/-- The spec's cumulative offset for the stop at index `k`: the sum of
`travel_minutes_from_prev` over the stops at indices `1 .. k`. -/
def specCumulative (stops : List Stop) (k : Nat) : Int :=
  (((stops.take (k + 1)).drop 1).map (fun s => s.travel_minutes_from_prev)).sum

/-- Concrete material used to instantiate the theorems below. -/
def exId : String := "5f1d7f2b8e4a9c3d2b1a0f9e"

/-- A second well-formed ObjectId, distinct from `exId`. -/
def exId2 : String := "aaaaaaaaaaaaaaaaaaaaaaaa"

def stopA : Stop := { name := "A", travel_minutes_from_prev := 0 }

def stopB : Stop := { name := "B", travel_minutes_from_prev := 5 }

def stopC : Stop := { name := "C", travel_minutes_from_prev := 4 }

/-- The spec's worked example: stops A(0), B(5), C(4) and schedules
07:30, 08:00. -/
def exLine : Line := { name := "L", stops := [stopA, stopB, stopC], schedules := ["07:30", "08:00"] }

def exStore : Store := [(exId, exLine)]

/-- An arbitrary wall-clock instant (some day at 10:01). -/
def exClock : PyDateTime := { day := 739000, minuteOfDay := 601 }

/- ## Helper lemmas -/

/-- The reference date contributes a whole number of days, which the
`%H:%M` rendering discards: the arrival string is the spec's formula
and is independent of the base datetime. -/
theorem arrivalStr_eq_specArrival (base : PyDateTime) (hh mm : Nat) (c : Int) :
    arrivalStr base hh mm c = specArrival c hh mm := by
  simp only [arrivalStr, specArrival, strftimeHM, addMinutes, replaceTime]
  congr 1
  omega

theorem stopArrival_base_irrel (b1 b2 : PyDateTime) (c : Int) (dep : String) :
    stopArrival b1 c dep = stopArrival b2 c dep := by
  unfold stopArrival
  cases h : parseDep dep with
  | none => rfl
  | some p =>
      cases p with
      | mk hh mm => simp [arrivalStr_eq_specArrival]

theorem arrivalsFor_base_irrel (b1 b2 : PyDateTime) (c : Int) :
    ∀ schedules : List String, arrivalsFor b1 c schedules = arrivalsFor b2 c schedules := by
  intro schedules
  induction schedules with
  | nil => rfl
  | cons dep rest ih =>
      simp only [arrivalsFor, stopArrival_base_irrel b1 b2 c dep, ih]

theorem etaAux_base_irrel (b1 b2 : PyDateTime) (schedules : List String) :
    ∀ (stops : List Stop) (i : Nat) (cum : Int),
      etaAux b1 schedules i cum stops = etaAux b2 schedules i cum stops := by
  intro stops
  induction stops with
  | nil => intro i cum; rfl
  | cons s rest ih =>
      intro i cum
      simp only [etaAux, arrivalsFor_base_irrel b1 b2 _ schedules, ih]

/-- When every schedule entry parses, the inner loop succeeds and each
arrival is the spec's formula. -/
theorem arrivalsFor_ok (base : PyDateTime) (c : Int) (schedules : List String)
    (hp : ∀ dep ∈ schedules, (parseDep dep).isSome) :
    arrivalsFor base c schedules =
      .ok (schedules.map (fun dep =>
        specArrival c ((parseDep dep).getD (0, 0)).1 ((parseDep dep).getD (0, 0)).2)) := by
  induction schedules with
  | nil => rfl
  | cons dep rest ih =>
      obtain ⟨⟨hh, mm⟩, hps⟩ := Option.isSome_iff_exists.mp (hp dep (by simp))
      have ihr := ih (fun d hd => hp d (by simp [hd]))
      simp [arrivalsFor, stopArrival, hps, ihr, arrivalStr_eq_specArrival]

/-- When every schedule entry parses, the outer loop succeeds; the
entry for each stop pairs its name with the arrivals computed from the
cumulative value `loopCums` assigns to that stop. -/
theorem etaAux_ok_form (base : PyDateTime) (schedules : List String)
    (hp : ∀ dep ∈ schedules, (parseDep dep).isSome) :
    ∀ (stops : List Stop) (i : Nat) (cum : Int),
      etaAux base schedules i cum stops =
        .ok (List.zipWith (fun (s : Stop) (c : Int) =>
            { stop := s.name,
              arrivals := schedules.map (fun dep =>
                specArrival c ((parseDep dep).getD (0, 0)).1 ((parseDep dep).getD (0, 0)).2) :
              EtaEntry })
          stops (loopCums i cum stops)) := by
  intro stops
  induction stops with
  | nil => intro i cum; rfl
  | cons s rest ih =>
      intro i cum
      simp [etaAux, loopCums, arrivalsFor_ok base _ schedules hp, ih]

theorem loopCums_length : ∀ (stops : List Stop) (i : Nat) (cum : Int),
    (loopCums i cum stops).length = stops.length := by
  intro stops
  induction stops with
  | nil => intro i cum; rfl
  | cons s rest ih => intro i cum; simp [loopCums, ih]

/-- Whenever the outer loop succeeds, it yields one entry per stop. -/
theorem etaAux_length (base : PyDateTime) (schedules : List String) :
    ∀ (stops : List Stop) (i : Nat) (cum : Int) (etas : List EtaEntry),
      etaAux base schedules i cum stops = .ok etas → etas.length = stops.length := by
  intro stops
  induction stops with
  | nil =>
      intro i cum etas h
      simp only [etaAux] at h
      cases h
      rfl
  | cons s rest ih =>
      intro i cum etas h
      simp only [etaAux] at h
      cases ha : arrivalsFor base (if i = 0 then 0 else cum + s.travel_minutes_from_prev) schedules with
      | error e => rw [ha] at h; cases h
      | ok arr =>
          rw [ha] at h
          cases hr : etaAux base schedules (i + 1)
              (if i = 0 then 0 else cum + s.travel_minutes_from_prev) rest with
          | error e => rw [hr] at h; cases h
          | ok more =>
              rw [hr] at h
              cases h
              simp [ih _ _ _ hr]

/-- Away from index 0 the loop is a plain running sum: entry `j` is
the incoming total plus the travel minutes of the first `j + 1`
remaining stops. -/
theorem loopCums_getD_of_ne_zero :
    ∀ (rest : List Stop) (i : Nat) (cum : Int) (j : Nat), i ≠ 0 → j < rest.length →
      (loopCums i cum rest).getD j 0 =
        cum + (((rest.take (j + 1)).map (fun s => s.travel_minutes_from_prev)).sum) := by
  intro rest
  induction rest with
  | nil => intro i cum j hi hj; simp at hj
  | cons r rs ih =>
      intro i cum j hi hj
      simp only [loopCums, if_neg hi]
      cases j with
      | zero => simp
      | succ j =>
          have hj' : j < rs.length := by simpa using hj
          have := ih (i + 1) (cum + r.travel_minutes_from_prev) j (by omega) hj'
          simp only [List.getD_cons_succ, this, List.take_succ_cons, List.map_cons,
            List.sum_cons]
          omega

/-- Rewriting the document at `id` is visible through a subsequent
lookup of `id`. -/
theorem lookupLine_storeUpdate_self :
    ∀ (store : Store) (id : String) (f : Line → Line) (doc : Line),
      lookupLine store id = some doc →
      lookupLine (storeUpdate store id f) id = some (f doc) := by
  intro store
  induction store with
  | nil => intro id f doc h; cases h
  | cons e rest ih =>
      intro id f doc h
      by_cases he : e.1 = id
      · simp [lookupLine, storeUpdate, he] at h ⊢
        exact congrArg f h
      · simp [lookupLine, storeUpdate, he] at h ⊢
        exact ih id f doc h

/-- Rewriting the document at `id` leaves every other id's document
alone. -/
theorem lookupLine_storeUpdate_ne :
    ∀ (store : Store) (id id2 : String) (f : Line → Line), id2 ≠ id →
      lookupLine (storeUpdate store id f) id2 = lookupLine store id2 := by
  intro store
  induction store with
  | nil => intro id id2 f h; rfl
  | cons e rest ih =>
      intro id id2 f h
      have h' : id ≠ id2 := fun hx => h hx.symm
      by_cases he : e.1 = id
      · simp [lookupLine, storeUpdate, he, h']
      · by_cases he2 : e.1 = id2
        · simp [lookupLine, storeUpdate, he, he2, h]
        · simp [lookupLine, storeUpdate, he, he2, ih id id2 f h]

/-- An `update_one` with an id matching no document leaves the store
unchanged (`matched_count == 0`). -/
theorem storeUpdate_of_lookup_none :
    ∀ (store : Store) (id : String) (f : Line → Line),
      lookupLine store id = none → storeUpdate store id f = store := by
  intro store
  induction store with
  | nil => intro id f _; rfl
  | cons e rest ih =>
      intro id f h
      by_cases he : e.1 = id
      · simp [lookupLine, he] at h
      · simp [lookupLine, he] at h
        simp [storeUpdate, he, ih id f h]

/- ## Claim theorems -/

/-- C1: in `compute_eta`, the cumulative travel-minutes offset of the
stop at index 0 is exactly 0 (whatever that stop's stored
`travel_minutes_from_prev` is, which the formula never reads), and the
offset of the stop at index `k` is the sum of
`travel_minutes_from_prev` over the stops at indices `1 .. k`. -/
theorem eta_cumulative_offsets (stops : List Stop) (k : Nat) (hk : k < stops.length) :
    (loopCums 0 0 stops).getD 0 0 = 0 ∧
    (loopCums 0 0 stops).getD k 0 = specCumulative stops k := by
  cases stops with
  | nil => simp at hk
  | cons s rest =>
      constructor
      · simp [loopCums]
      · cases k with
        | zero => simp [loopCums, specCumulative]
        | succ j =>
            have hj : j < rest.length := by simpa using hk
            have h := loopCums_getD_of_ne_zero rest 1 0 j (by omega) hj
            have hcons : loopCums 0 0 (s :: rest) = 0 :: loopCums 1 0 rest := by
              simp [loopCums]
            rw [hcons, List.getD_cons_succ, h, specCumulative]
            simp [List.take_succ_cons]

/-- Witness for C1 at the spec's example stops, `k = 2`. -/
theorem eta_cumulative_offsets_witness :
    2 < ([stopA, stopB, stopC] : List Stop).length ∧
    (loopCums 0 0 [stopA, stopB, stopC]).getD 2 0 = specCumulative [stopA, stopB, stopC] 2 :=
  ⟨by decide, (eta_cumulative_offsets [stopA, stopB, stopC] 2 (by decide)).2⟩

/-- C6: a line with an empty schedule list yields an empty `etas`
payload, whatever its stops, `from_stop_index` or reference time (the
empty-schedule return precedes the `now` parsing, so even a malformed
`now` is irrelevant). -/
theorem eta_empty_schedules (store : Store) (clock : PyDateTime) (id : String)
    (fsi : Int) (now : Option String) (doc : Line)
    (hid : isValidObjectId id = true) (hdoc : lookupLine store id = some doc)
    (hsched : doc.schedules = []) :
    compute_eta store clock id fsi now = .ok [] := by
  simp [compute_eta, hid, hdoc, hsched]

/-- Witness for C6: empty schedules, stops present, negative index and
malformed `now`. -/
theorem eta_empty_schedules_witness :
    compute_eta [(exId, { name := "M", stops := [stopA, stopB] })] exClock exId (-3)
      (some "99:99") = .ok [] :=
  eta_empty_schedules _ _ _ _ _ { name := "M", stops := [stopA, stopB] }
    (by decide) (by decide) rfl

/-- C3 counterexample: `exId2` is a well-formed id resolving to no
line in the empty store, yet `set_schedules` answers success (the
handler never checks `matched_count`), not `NotFound`. -/
theorem set_schedules_no_notfound_cex :
    isValidObjectId exId2 = true ∧
    lookupLine ([] : Store) exId2 = none ∧
    set_schedules ([] : Store) exId2 ["07:00"] = (.ok (), ([] : Store)) := by
  decide

/-- C3 as amended: `set_schedules` never reports `NotFound`; a
malformed id is the caught 400 `Invalid line id`, and any well-formed
id reports success, rewriting the matching document if one exists and
leaving the store unchanged otherwise. -/
theorem set_schedules_behavior (store : Store) (id : String) (schedules : List String) :
    (set_schedules store id schedules).1 ≠ .error .notFound ∧
    (isValidObjectId id = false →
      set_schedules store id schedules = (.error .invalidId, store)) ∧
    (isValidObjectId id = true →
      set_schedules store id schedules =
        (.ok (), storeUpdate store id (fun d => { d with schedules := schedules }))) := by
  refine ⟨?_, ?_, ?_⟩
  · cases hv : isValidObjectId id <;> simp [set_schedules, hv]
  · intro hv; simp [set_schedules, hv]
  · intro hv; simp [set_schedules, hv]

/-- Witness for C3's amended statement at a concrete store. -/
theorem set_schedules_behavior_witness :
    (set_schedules exStore exId ["09:00"]).1 ≠ .error .notFound ∧
    set_schedules exStore exId ["09:00"] =
      (.ok (), storeUpdate exStore exId (fun d => { d with schedules := ["09:00"] })) := by
  have h := set_schedules_behavior exStore exId ["09:00"]
  exact ⟨h.1, h.2.2 (by decide)⟩

/-- C8 counterexample: a malformed id raises an uncaught `InvalidId`
(`compute_eta` has no try/except around `ObjectId`), while a
well-formed unmatched id yields `NotFound`; they are distinct
observable conditions. -/
theorem eta_malformed_id_cex :
    compute_eta ([] : Store) exClock "xyz" 0 none = .error (.internalError "InvalidId") ∧
    compute_eta ([] : Store) exClock exId 0 none = .error .notFound ∧
    (ApiError.internalError "InvalidId" : ApiError) ≠ .notFound := by
  decide

/-- When the `now` resolution fails it is the uncaught `ValueError`
of `strptime`, never `NotFound`. -/
theorem resolveBase_error (clock : PyDateTime) (now : Option String) (e : ApiError)
    (h : resolveBase clock now = .error e) : e = .internalError "ValueError" := by
  unfold resolveBase at h
  split at h
  · cases h
  · split at h
    · cases h
    · split at h
      · cases h
      · injection h with h2
        exact h2.symm

/-- A failing arrival is the uncaught `ValueError` of
`int(...)`/`replace(...)`, never `NotFound`. -/
theorem stopArrival_error (base : PyDateTime) (c : Int) (dep : String) (e : ApiError)
    (h : stopArrival base c dep = .error e) : e = .internalError "ValueError" := by
  unfold stopArrival at h
  split at h
  · cases h
  · injection h with h2
    exact h2.symm

/-- A failing inner loop fails with the `ValueError` of some entry. -/
theorem arrivalsFor_error :
    ∀ (schedules : List String) (base : PyDateTime) (c : Int) (e : ApiError),
      arrivalsFor base c schedules = .error e → e = .internalError "ValueError" := by
  intro schedules
  induction schedules with
  | nil => intro base c e h; cases h
  | cons d rest ih =>
      intro base c e h
      simp only [arrivalsFor] at h
      cases hs : stopArrival base c d with
      | error e2 => rw [hs] at h; cases h; exact stopArrival_error base c d _ hs
      | ok a =>
          rw [hs] at h
          cases hr : arrivalsFor base c rest with
          | error e2 => rw [hr] at h; cases h; exact ih base c _ hr
          | ok more => rw [hr] at h; cases h

/-- A failing outer loop fails with the `ValueError` of some entry. -/
theorem etaAux_error (base : PyDateTime) (schedules : List String) :
    ∀ (stops : List Stop) (i : Nat) (cum : Int) (e : ApiError),
      etaAux base schedules i cum stops = .error e → e = .internalError "ValueError" := by
  intro stops
  induction stops with
  | nil => intro i cum e h; cases h
  | cons s rest ih =>
      intro i cum e h
      simp only [etaAux] at h
      cases ha : arrivalsFor base (if i = 0 then 0 else cum + s.travel_minutes_from_prev)
          schedules with
      | error e2 => rw [ha] at h; cases h; exact arrivalsFor_error schedules base _ _ ha
      | ok arr =>
          rw [ha] at h
          cases hr : etaAux base schedules (i + 1)
              (if i = 0 then 0 else cum + s.travel_minutes_from_prev) rest with
          | error e2 => rw [hr] at h; cases h; exact ih (i + 1) _ _ hr
          | ok more => rw [hr] at h; cases h

/-- C8 as amended: `compute_eta` yields `NotFound` exactly for a
well-formed id matching no document (the biconditional rules
`NotFound` out in every other case); a malformed id instead escapes as
an uncaught invalid-id exception. -/
theorem eta_id_resolution (store : Store) (clock : PyDateTime) (id : String)
    (fsi : Int) (now : Option String) :
    (isValidObjectId id = false →
      compute_eta store clock id fsi now = .error (.internalError "InvalidId")) ∧
    (isValidObjectId id = true → lookupLine store id = none →
      compute_eta store clock id fsi now = .error .notFound) ∧
    (compute_eta store clock id fsi now = .error .notFound ↔
      isValidObjectId id = true ∧ lookupLine store id = none) := by
  have h1 : isValidObjectId id = false →
      compute_eta store clock id fsi now = .error (.internalError "InvalidId") := by
    intro h; simp [compute_eta, h]
  have h2 : isValidObjectId id = true → lookupLine store id = none →
      compute_eta store clock id fsi now = .error .notFound := by
    intro h hl; simp [compute_eta, h, hl]
  refine ⟨h1, h2, ⟨?_, fun hp => h2 hp.1 hp.2⟩⟩
  intro heq
  cases hv : isValidObjectId id with
  | false =>
      rw [h1 hv] at heq
      exact absurd heq (by decide)
  | true =>
      cases hl : lookupLine store id with
      | none => exact ⟨rfl, rfl⟩
      | some doc =>
          exfalso
          cases he : doc.schedules.isEmpty with
          | true => simp [compute_eta, hv, hl, he] at heq
          | false =>
              cases hb : resolveBase clock now with
              | error e =>
                  have he2 := resolveBase_error clock now e hb
                  subst he2
                  simp [compute_eta, hv, hl, he, hb] at heq
              | ok base =>
                  cases hr : etaAux base doc.schedules 0 0 doc.stops with
                  | error e =>
                      have he2 := etaAux_error base doc.schedules doc.stops 0 0 e hr
                      subst he2
                      simp [compute_eta, hv, hl, he, hb, hr] at heq
                  | ok etas => simp [compute_eta, hv, hl, he, hb, hr] at heq

/-- Witness for C8's amended statement: the malformed, unmatched and
matched cases at concrete inputs; the matched line answers something
other than `NotFound`. -/
theorem eta_id_resolution_witness :
    compute_eta ([] : Store) exClock "nope" 3 (some "07:00") =
      .error (.internalError "InvalidId") ∧
    compute_eta exStore exClock exId2 0 none = .error .notFound ∧
    compute_eta exStore exClock exId 0 none ≠ .error .notFound := by
  refine ⟨(eta_id_resolution ([] : Store) exClock "nope" 3 (some "07:00")).1 (by decide),
    (eta_id_resolution exStore exClock exId2 0 none).2.1 (by decide) (by decide), ?_⟩
  intro heq
  have h := ((eta_id_resolution exStore exClock exId 0 none).2.2).mp heq
  exact absurd h.2 (by decide)

/-- The stop of C9's failing input: `travel_minutes_from_prev = -5`. -/
def negStopInput : StopInput := { name := "X", travel_minutes_from_prev := -5 }

/-- C9: `add_stop` validates the body against `StopInput`, which has
no `ge=0` bound, so a negative `travel_minutes_from_prev` is accepted
and appended — the stored stop then violates the `ge=0` declaration of
`schemas.Stop` for the very same field. -/
theorem add_stop_accepts_negative :
    add_stop exStore exId negStopInput =
      (.ok (), [(exId, { exLine with stops := exLine.stops ++ [negStopInput.toStop] })]) ∧
    (lookupLine (add_stop exStore exId negStopInput).2 exId).map Line.stops =
      some [stopA, stopB, stopC,
        { name := "X", travel_minutes_from_prev := -5 }] ∧
    stopSchemaOK negStopInput.toStop = false := by
  decide

/-- If the inner loop succeeded, every schedule entry parsed. -/
theorem arrivalsFor_ok_all_parse :
    ∀ (schedules : List String) (base : PyDateTime) (c : Int) (arr : List String),
      arrivalsFor base c schedules = .ok arr →
      ∀ dep ∈ schedules, (parseDep dep).isSome := by
  intro schedules
  induction schedules with
  | nil => intro _ _ _ _ dep hdep; cases hdep
  | cons d rest ih =>
      intro base c arr h dep hdep
      simp only [arrivalsFor] at h
      cases hs : stopArrival base c d with
      | error e => rw [hs] at h; cases h
      | ok a =>
          rw [hs] at h
          cases hr : arrivalsFor base c rest with
          | error e => rw [hr] at h; cases h
          | ok more =>
              rcases List.mem_cons.mp hdep with hd | hd
              · subst hd
                unfold stopArrival at hs
                cases hp : parseDep dep with
                | none => rw [hp] at hs; cases hs
                | some p => simp [hp]
              · exact ih base c more hr dep hd

/-- If the outer loop succeeded on a nonempty stop list, every
schedule entry parsed (the first iteration already walks all of
them). -/
theorem etaAux_cons_all_parse (base : PyDateTime) (schedules : List String)
    (i : Nat) (cum : Int) (s : Stop) (rest : List Stop) (etas : List EtaEntry)
    (h : etaAux base schedules i cum (s :: rest) = .ok etas) :
    ∀ dep ∈ schedules, (parseDep dep).isSome := by
  simp only [etaAux] at h
  cases ha : arrivalsFor base (if i = 0 then 0 else cum + s.travel_minutes_from_prev)
      schedules with
  | error e => rw [ha] at h; cases h
  | ok arr => exact arrivalsFor_ok_all_parse schedules base _ arr ha

/-- C2: a successful projection is exactly the stop list zipped with
the loop's cumulative offsets, each (stop, schedule) arrival being the
schedule's `HH:MM` minute of day plus that stop's cumulative offset,
reduced modulo 1440 and rendered back as `HH:MM` (`specArrival`); and
on the spec's example line the projection is exactly the listed one. -/
theorem eta_arrival_formula :
    (∀ (base : PyDateTime) (schedules : List String) (stops : List Stop)
        (etas : List EtaEntry),
      etaAux base schedules 0 0 stops = .ok etas →
      etas = List.zipWith (fun (s : Stop) (c : Int) =>
          { stop := s.name,
            arrivals := schedules.map (fun dep =>
              specArrival c ((parseDep dep).getD (0, 0)).1 ((parseDep dep).getD (0, 0)).2) :
            EtaEntry })
        stops (loopCums 0 0 stops)) ∧
    compute_eta exStore exClock exId 0 none =
      .ok [⟨"A", ["07:30", "08:00"]⟩, ⟨"B", ["07:35", "08:05"]⟩,
           ⟨"C", ["07:39", "08:09"]⟩] := by
  constructor
  · intro base schedules stops etas hrun
    cases stops with
    | nil =>
        simp only [etaAux] at hrun
        cases hrun
        simp [loopCums]
    | cons s rest =>
        have hall := etaAux_cons_all_parse base schedules 0 0 s rest etas hrun
        have hform := etaAux_ok_form base schedules hall (s :: rest) 0 0
        rw [hrun] at hform
        exact Except.ok.inj hform
  · decide

/-- Witness for C2 at the spec's example line. -/
theorem eta_arrival_formula_witness :
    ([⟨"A", ["07:30", "08:00"]⟩, ⟨"B", ["07:35", "08:05"]⟩,
      ⟨"C", ["07:39", "08:09"]⟩] : List EtaEntry) =
      List.zipWith (fun (s : Stop) (c : Int) =>
          { stop := s.name,
            arrivals := ["07:30", "08:00"].map (fun dep =>
              specArrival c ((parseDep dep).getD (0, 0)).1 ((parseDep dep).getD (0, 0)).2) :
            EtaEntry })
        [stopA, stopB, stopC] (loopCums 0 0 [stopA, stopB, stopC]) :=
  eta_arrival_formula.1 exClock ["07:30", "08:00"] [stopA, stopB, stopC] _ (by decide)

/-- C4: with a valid index, `edit_stop` succeeds and rewrites exactly
the stop at that index with the patched fields — every other stop,
every other line, and every field absent from the patch (including the
stored `id`) are unchanged; with an out-of-bounds index it fails with
`InvalidIndex` and the store is untouched. -/
theorem edit_stop_frame (store : Store) (id : String) (patch : StopPatch) (doc : Line)
    (hid : isValidObjectId id = true) (hdoc : lookupLine store id = some doc) :
    ((0 ≤ patch.index ∧ patch.index < (doc.stops.length : Int)) →
      (edit_stop store id patch).1 = .ok () ∧
      lookupLine (edit_stop store id patch).2 id =
        some { doc with stops := doc.stops.set patch.index.toNat (applyPatch patch (doc.stops.getD patch.index.toNat default)) } ∧
      (∀ j : Nat, j ≠ patch.index.toNat →
        (doc.stops.set patch.index.toNat
            (applyPatch patch (doc.stops.getD patch.index.toNat default))).getD j default =
          doc.stops.getD j default) ∧
      (∀ other : String, other ≠ id →
        lookupLine (edit_stop store id patch).2 other = lookupLine store other)) ∧
    ((patch.index < 0 ∨ (doc.stops.length : Int) ≤ patch.index) →
      edit_stop store id patch = (.error .invalidIndex, store)) ∧
    (∀ s : Stop,
      (applyPatch patch s).id = s.id ∧
      (patch.name = none → (applyPatch patch s).name = s.name) ∧
      (∀ v, patch.name = some v → (applyPatch patch s).name = v) ∧
      (patch.lat = none → (applyPatch patch s).lat = s.lat) ∧
      (∀ v, patch.lat = some v → (applyPatch patch s).lat = some v) ∧
      (patch.lng = none → (applyPatch patch s).lng = s.lng) ∧
      (∀ v, patch.lng = some v → (applyPatch patch s).lng = some v) ∧
      (patch.travel_minutes_from_prev = none →
        (applyPatch patch s).travel_minutes_from_prev = s.travel_minutes_from_prev) ∧
      (∀ v, patch.travel_minutes_from_prev = some v →
        (applyPatch patch s).travel_minutes_from_prev = v)) := by
  refine ⟨?_, ?_, ?_⟩
  · rintro ⟨h0, hlt⟩
    have hcond : ¬(patch.index < 0 ∨ (doc.stops.length : Int) ≤ patch.index) := by omega
    have hrun : edit_stop store id patch =
        (.ok (), storeUpdate store id (fun d => { d with stops := doc.stops.set patch.index.toNat (applyPatch patch (doc.stops.getD patch.index.toNat default)) })) := by
      simp [edit_stop, hid, hdoc, hcond]
    rw [hrun]
    refine ⟨rfl, ?_, ?_, ?_⟩
    · rw [lookupLine_storeUpdate_self store id _ doc hdoc]
    · intro j hj
      simp only [List.getD_eq_getElem?_getD]
      rw [List.getElem?_set_ne (fun hx => hj hx.symm)]
    · intro other hother
      exact lookupLine_storeUpdate_ne store id other _ hother
  · intro h
    simp only [edit_stop]
    rw [if_neg (by simp [hid]), hdoc]
    simp only []
    rw [if_pos h]
  · intro s
    refine ⟨rfl, ?_, ?_, ?_, ?_, ?_, ?_, ?_, ?_⟩
    · intro h; simp [applyPatch, h]
    · intro v h; simp [applyPatch, h]
    · intro h; simp [applyPatch, h]
    · intro v h; simp [applyPatch, h]
    · intro h; simp [applyPatch, h]
    · intro v h; simp [applyPatch, h]
    · intro h; simp [applyPatch, h]
    · intro v h; simp [applyPatch, h]

/-- Witness for C4: patch the name of stop 1 on the example line. -/
theorem edit_stop_frame_witness :
    (edit_stop exStore exId { index := 1, name := some "B2" }).1 = .ok () ∧
    lookupLine (edit_stop exStore exId { index := 1, name := some "B2" }).2 exId =
      some { exLine with stops := [stopA, { stopB with name := "B2" }, stopC] } := by
  have h := (edit_stop_frame exStore exId { index := 1, name := some "B2" } exLine
    (by decide) (by decide)).1 (by decide)
  refine ⟨h.1, ?_⟩
  rw [h.2.1]
  decide

/-- C5: with a valid index, `delete_stop` removes exactly the stop at
that index: the count drops by one, stops before the index keep their
positions, stops after it shift down by one, and other lines are
untouched. -/
theorem delete_stop_shifts (store : Store) (id : String) (i : Int) (doc : Line)
    (hid : isValidObjectId id = true) (hdoc : lookupLine store id = some doc)
    (h0 : 0 ≤ i) (hlt : i < (doc.stops.length : Int)) :
    (delete_stop store id i).1 = .ok () ∧
    lookupLine (delete_stop store id i).2 id =
      some { doc with stops := doc.stops.eraseIdx i.toNat } ∧
    (doc.stops.eraseIdx i.toNat).length = doc.stops.length - 1 ∧
    (∀ j : Nat, j < i.toNat →
      (doc.stops.eraseIdx i.toNat).getD j default = doc.stops.getD j default) ∧
    (∀ j : Nat, i.toNat < j → j < doc.stops.length →
      (doc.stops.eraseIdx i.toNat).getD (j - 1) default = doc.stops.getD j default) ∧
    (∀ other : String, other ≠ id →
      lookupLine (delete_stop store id i).2 other = lookupLine store other) := by
  have hcond : ¬(i < 0 ∨ (doc.stops.length : Int) ≤ i) := by omega
  have hrun : delete_stop store id i =
      (.ok (), storeUpdate store id (fun d => { d with stops := doc.stops.eraseIdx i.toNat })) := by
    simp [delete_stop, hid, hdoc, hcond]
  rw [hrun]
  refine ⟨rfl, ?_, ?_, ?_, ?_, ?_⟩
  · rw [lookupLine_storeUpdate_self store id _ doc hdoc]
  · rw [List.length_eraseIdx]
    simp [show i.toNat < doc.stops.length by omega]
  · intro j hj
    simp only [List.getD_eq_getElem?_getD]
    rw [List.getElem?_eraseIdx, if_pos hj]
  · intro j hgt hj
    simp only [List.getD_eq_getElem?_getD]
    rw [List.getElem?_eraseIdx, if_neg (by omega), show j - 1 + 1 = j by omega]
  · intro other hother
    exact lookupLine_storeUpdate_ne store id other _ hother

/-- Witness for C5: delete stop 1 of the example line. -/
theorem delete_stop_shifts_witness :
    (delete_stop exStore exId 1).1 = .ok () ∧
    lookupLine (delete_stop exStore exId 1).2 exId =
      some { exLine with stops := [stopA, stopC] } := by
  have h := delete_stop_shifts exStore exId 1 exLine (by decide) (by decide)
    (by decide) (by decide)
  refine ⟨h.1, ?_⟩
  rw [h.2.1]
  decide

/-- C7: once the projection is built, an in-range `from_stop_index`
drops the entries before it and an out-of-range one (negative or past
the stop count) leaves the projection whole, with no error either
way. -/
theorem eta_truncation (store : Store) (clock : PyDateTime) (id : String) (fsi : Int)
    (now : Option String) (doc : Line) (base : PyDateTime) (etas : List EtaEntry)
    (hid : isValidObjectId id = true) (hdoc : lookupLine store id = some doc)
    (hsched : doc.schedules ≠ [])
    (hbase : resolveBase clock now = .ok base)
    (hrun : etaAux base doc.schedules 0 0 doc.stops = .ok etas) :
    ((0 ≤ fsi ∧ fsi < (doc.stops.length : Int)) →
      compute_eta store clock id fsi now = .ok (etas.drop fsi.toNat)) ∧
    ((fsi < 0 ∨ (doc.stops.length : Int) ≤ fsi) →
      compute_eta store clock id fsi now = .ok etas) := by
  have hlen : etas.length = doc.stops.length :=
    etaAux_length base doc.schedules doc.stops 0 0 etas hrun
  have hne : doc.schedules.isEmpty = false := by
    cases hs : doc.schedules with
    | nil => exact absurd hs hsched
    | cons a l => rfl
  have hce : compute_eta store clock id fsi now =
      .ok (if 0 ≤ fsi ∧ fsi < (etas.length : Int) then etas.drop fsi.toNat else etas) := by
    simp [compute_eta, hid, hdoc, hne, hbase, hrun]
  constructor
  · rintro ⟨ha, hb⟩
    rw [hce, if_pos (show 0 ≤ fsi ∧ fsi < (etas.length : Int) by omega)]
  · intro h
    rw [hce, if_neg (show ¬(0 ≤ fsi ∧ fsi < (etas.length : Int)) by omega)]

/-- Witness for C7: `from_stop_index = 1` on the example line drops
the first entry. -/
theorem eta_truncation_witness :
    compute_eta exStore exClock exId 1 none =
      .ok [⟨"B", ["07:35", "08:05"]⟩, ⟨"C", ["07:39", "08:09"]⟩] := by
  have h := (eta_truncation exStore exClock exId 1 none exLine exClock
    [⟨"A", ["07:30", "08:00"]⟩, ⟨"B", ["07:35", "08:05"]⟩, ⟨"C", ["07:39", "08:09"]⟩]
    (by decide) (by decide) (by decide) rfl (by decide)).1 (by decide)
  exact h.trans (by decide)

/-- C10: for a fixed store, line id and `from_stop_index`, the `etas`
payload is the same whatever the wall clock is and whether `now` is
omitted or any string `resolveBase` accepts: the reference time never
reaches the output. -/
theorem eta_reference_time_independent (store : Store) (id : String) (fsi : Int)
    (c1 c2 : PyDateTime) (n1 n2 : Option String) (b1 b2 : PyDateTime)
    (h1 : resolveBase c1 n1 = .ok b1) (h2 : resolveBase c2 n2 = .ok b2) :
    compute_eta store c1 id fsi n1 = compute_eta store c2 id fsi n2 := by
  cases hv : isValidObjectId id with
  | false => simp [compute_eta, hv]
  | true =>
      cases hl : lookupLine store id with
      | none => simp [compute_eta, hv, hl]
      | some doc =>
          cases he : doc.schedules.isEmpty with
          | true => simp [compute_eta, hv, hl, he]
          | false =>
              simp [compute_eta, hv, hl, he, h1, h2,
                etaAux_base_irrel b1 b2 doc.schedules doc.stops 0 0]

/-- Witness for C10: a supplied `now` of 13:00 against a different
clock with `now` omitted give identical payloads. -/
theorem eta_reference_time_independent_witness :
    compute_eta exStore exClock exId 0 (some "13:00") =
      compute_eta exStore { day := 1, minuteOfDay := 0 } exId 0 none :=
  eta_reference_time_independent exStore exId 0 exClock { day := 1, minuteOfDay := 0 }
    (some "13:00") none { day := 739000, minuteOfDay := 780 } { day := 1, minuteOfDay := 0 }
    (by decide) rfl
